import Mathlib

/-!
Shallow embedding of the Ts3Proxy port-forwarding engine (src/server.js).

The embedding covers the parts of server.js that the verified claims are
about: the per-client UDP session path inside startUdpProxy (session
creation, idle-timer reset, backend-reply relay), the listener lifecycle
(startTcpProxy / startUdpProxy / startAllProxies / stopAllProxies and the
listener error handlers), the routeManager operations (addRoute /
removeRoute / updateRoute / toggleRoute), and the HTTP control-plane
normalisation in handleApiRequest.

Modelling conventions:
- JavaScript objects become Lean structures; the mutable globals
  config.routes and activeServers, together with the OS-visible resources
  (bound listening sockets, open per-session sockets, pending timers),
  the persistence counter and the emitted log events, are threaded as an
  explicit World state.
- JS reference identity of server objects matters in server.js (the
  activeServers filters compare with !==), so server objects are modelled
  by the inductive JsServerObj carrying a numeric identity.  A UDP route
  stores the plain wrapper object returned by startUdpProxy
  (the object literal with fields server and clients); that wrapper has
  no close method, so calling close() on it throws a TypeError, which the
  surrounding try/catch swallows.  closeServerObj returns a Bool flag
  recording whether the close call succeeded (true) or threw (false).
- node timers and sockets are identified by freshly allocated numbers;
  setTimeout adds a pending timer id, clearTimeout removes it.
- fs persistence (saveConfig) is modelled as a counter bump plus a log
  event; the log collaborator is modelled by recording every (level,
  message) pair that server.js passes to log(), without the sink-side
  level gating.
-/

namespace Ts3Proxy

/-- A (host, port) address pair, as used for listen and forward addresses. -/
structure Endpoint where
  host : String
  port : Nat
deriving DecidableEq, Repr

/-- A route definition as stored in config.routes (server.js route objects:
name, protocol, listen, forward, enabled). -/
structure Route where
  name : String
  protocol : String
  listen : Endpoint
  forward : Endpoint
  enabled : Bool
deriving DecidableEq, Repr

/-- One UDP client session, as stored in the clients map of startUdpProxy:
clients.set(clientKey, \x7b socket: clientSocket, timeout \x7d).  The key is the
client endpoint, sockId identifies the dedicated outbound dgram socket and
timerId the currently pending idle timer. -/
structure Session where
  key : Endpoint
  sockId : Nat
  timerId : Nat
deriving DecidableEq, Repr

/-! ## SessionRelay: the UDP datagram path (server.js lines 159-214)

State of one running UDP listener: its clients map, the set of pending
idle-timer handles, the set of open per-session outbound sockets, and a
fresh-id counter for newly allocated sockets/timers. -/

structure UdpState where
  clients : List Session
  timers : List Nat
  socks : List Nat
  nextId : Nat
deriving DecidableEq, Repr

/-- clients.get(clientKey) / clients.has(clientKey): the clients Map keyed by
the datagram source endpoint. -/
def findSession (cs : List Session) (k : Endpoint) : Option Session :=
  cs.find? (fun s => s.key = k)

/-- clients.get(clientKey).timeout = t (line 198): update the pending-timer
handle stored for key k. -/
def setSessionTimer (cs : List Session) (k : Endpoint) (t : Nat) : List Session :=
  cs.map (fun s => if s.key = k then { s with timerId := t } else s)

/-- The timer handle currently stored for client k, if a session exists. -/
def sessionTimer (st : UdpState) (k : Endpoint) : Option Nat :=
  (findSession st.clients k).map (fun s => s.timerId)

/-- The message handler of the UDP listening socket (lines 159-214).
If no session exists for the source endpoint, a dedicated outbound socket
is created, an initial idle timer is set, and the session is added to the
map (lines 162-194; socket allocation is modelled as succeeding, so the
catch branch at 190-193 is not taken).  Then, for the (now) existing
session, the pending idle timer is cleared and a fresh one started
(lines 196-204) and the payload is sent to the forward endpoint through
the session socket (lines 206-212; the send has no effect on this state). -/
def onClientDatagram (st : UdpState) (rinfo : Endpoint) : UdpState :=
  let st₁ :=
    if (findSession st.clients rinfo).isSome then st
    else
      { st with
        clients := st.clients ++ [{ key := rinfo, sockId := st.nextId, timerId := st.nextId + 1 }],
        socks := st.nextId :: st.socks,
        timers := (st.nextId + 1) :: st.timers,
        nextId := st.nextId + 2 }
  match findSession st₁.clients rinfo with
  | none => st₁
  | some sess =>
    { st₁ with
      clients := setSessionTimer st₁.clients rinfo st₁.nextId,
      timers := st₁.nextId :: st₁.timers.filter (fun t => t ≠ sess.timerId),
      nextId := st₁.nextId + 1 }

/-- The message handler registered on a session's dedicated outbound socket
(lines 169-173): a datagram arriving from the backend is relayed to the
original client endpoint through the listening socket (udpServer.send) and
nothing else happens; in particular the session table, the pending timers
and the sockets are untouched.  Returns the unchanged state together with
the (destination, payload) of the relayed reply. -/
def onBackendReply (st : UdpState) (k : Endpoint) (msg : String) :
    UdpState × (Endpoint × String) :=
  (st, (k, msg))

/-- The idle-timer callback (lines 198-204): if the session still exists,
its outbound socket is closed and it is removed from the map; the fired
timer is no longer pending. -/
def onSessionTimeout (st : UdpState) (k : Endpoint) : UdpState :=
  match findSession st.clients k with
  | none => st
  | some s =>
    { st with
      clients := st.clients.filter (fun c => c.key ≠ k),
      socks := st.socks.filter (fun so => so ≠ s.sockId),
      timers := st.timers.filter (fun t => t ≠ s.timerId) }

/-! ## The listener lifecycle: World state

One global state for the rest of server.js: the route table
(config.routes), the active-listener list (activeServers), the OS-visible
bound listening sockets, the per-UDP-listener session tables (the clients
maps captured by each startUdpProxy call, keyed by the listening socket
id), the live per-session timers and outbound sockets, a fresh-id counter,
the number of saveConfig calls, and the emitted log events (newest
first). -/

/-- A JS server object, compared by reference identity (the code uses !==
on these).  tcpSrv is the net.Server returned by startTcpProxy; udpSock is
the dgram socket created inside startUdpProxy; udpWrap is the plain object
literal with fields server and clients that startUdpProxy actually
returns, wrapping udpSock of the same id.  Only tcpSrv and udpSock have a
close method; calling close() on udpWrap throws a TypeError. -/
inductive JsServerObj where
  | tcpSrv (id : Nat)
  | udpSock (id : Nat)
  | udpWrap (id : Nat)
deriving DecidableEq, Repr

/-- An element of the activeServers array (the object pushed at server.js
lines 255-261 and the analogous pushes in the routeManager). -/
structure ActiveServer where
  name : String
  protocol : String
  listen : Endpoint
  forward : Endpoint
  server : JsServerObj
deriving DecidableEq, Repr

structure World where
  routes : List Route
  active : List ActiveServer
  bound : List (JsServerObj × String × Endpoint)
  sessions : List (Nat × List Session)
  timers : List Nat
  socks : List Nat
  nextId : Nat
  saves : Nat
  logs : List (String × String)
deriving DecidableEq, Repr

/-- A call to log(level, message): the event handed to the logging
collaborator (the sink-side level gating of the log function is the
collaborator's business and not modelled). -/
def logAt (w : World) (level msg : String) : World :=
  { w with logs := (level, msg) :: w.logs }

/-- saveConfig (lines 23-32): writes the route table to disk and logs;
modelled as a persistence-event counter bump (the write is taken to
succeed). -/
def saveConfig (w : World) : World :=
  logAt { w with saves := w.saves + 1 } "info" "Config saved to proxy-config.json"

/-- The result object returned by every routeManager operation. -/
structure RmResult where
  success : Bool
  message : String
deriving DecidableEq, Repr

/-- Two (protocol, listen) pairs collide, exactly as the pre-bind scan in
startTcpProxy (lines 74-81) and startUdpProxy (lines 141-148) compares
them: protocol, port and host each with ===. -/
def collidesWith (p₁ : String) (l₁ : Endpoint) (p₂ : String) (l₂ : Endpoint) : Prop :=
  p₁ = p₂ ∧ l₁.port = l₂.port ∧ l₁.host = l₂.host

instance (p₁ : String) (l₁ : Endpoint) (p₂ : String) (l₂ : Endpoint) :
    Decidable (collidesWith p₁ l₁ p₂ l₂) := by
  unfold collidesWith; infer_instance

/-- The pre-bind collision scan over activeServers. -/
def hasCollision (as : List ActiveServer) (p : String) (l : Endpoint) : Bool :=
  as.any (fun s => decide (collidesWith s.protocol s.listen p l))

/-- Whether the OS already holds a listening socket for (protocol, addr). -/
def addrBound (bs : List (JsServerObj × String × Endpoint)) (p : String) (l : Endpoint) : Bool :=
  bs.any (fun b => decide (b.2.1 = p ∧ b.2.2 = l))

/-- The OS-level bind performed by tcpServer.listen / udpServer.bind.  If
the address is free the socket becomes bound; if another socket already
holds it the bind fails, which node reports asynchronously through the
server's error event — the synchronous caller observes no difference, so
the state change is simply absent. -/
def osBind (w : World) (s : JsServerObj) (p : String) (l : Endpoint) : World :=
  if addrBound w.bound p l then w else { w with bound := (s, p, l) :: w.bound }

/-- A call obj.close(): returns (true, updated world) when obj has a close
method (net.Server, dgram.Socket), releasing its OS bind; returns
(false, unchanged world) when obj is the plain wrapper object returned by
startUdpProxy, whose close() call throws a TypeError. -/
def closeServerObj (w : World) (s : JsServerObj) : Bool × World :=
  match s with
  | .udpWrap _ => (false, w)
  | _ => (true, { w with bound := w.bound.filter (fun b => b.1 ≠ s) })

/-- startTcpProxy (lines 73-138): collision pre-check against
activeServers, then create the net.Server and listen.  Per-connection
relay behaviour is out of scope of the lifecycle claims.  Returns the
value the function returns (null or the tcpServer) plus the new world. -/
def startTcpProxy (w : World) (route : Route) : Option JsServerObj × World :=
  if hasCollision w.active "tcp" route.listen then
    (none, logAt w "warn" ("TCP proxy for " ++ route.name ++ " cannot start: Address already in use"))
  else
    let srv := JsServerObj.tcpSrv w.nextId
    (some srv, osBind { w with nextId := w.nextId + 1 } srv "tcp" route.listen)

/-- startUdpProxy (lines 140-237): collision pre-check, create the dgram
socket and a fresh empty clients map, bind, and return the object literal
with fields server and clients — modelled as udpWrap of the socket id. -/
def startUdpProxy (w : World) (route : Route) : Option JsServerObj × World :=
  if hasCollision w.active "udp" route.listen then
    (none, logAt w "warn" ("UDP proxy for " ++ route.name ++ " cannot start: Address already in use"))
  else
    let id := w.nextId
    let w₁ := { w with nextId := id + 1, sessions := (id, []) :: w.sessions }
    (some (JsServerObj.udpWrap id), osBind w₁ (JsServerObj.udpSock id) "udp" route.listen)

/-- The protocol dispatch used by startAllProxies, addRoute, updateRoute
and toggleRoute: let server = null; if tcp ... else if udp ...; any other
protocol leaves server null. -/
def startRoute (w : World) (route : Route) : Option JsServerObj × World :=
  if route.protocol = "tcp" then startTcpProxy w route
  else if route.protocol = "udp" then startUdpProxy w route
  else (none, w)

/-- Start a route and, when a server object was returned, push the
corresponding activeServers entry under the given registry name (the
if (server) activeServers.push(...) blocks). -/
def startAndRegister (w : World) (nm : String) (route : Route) : World :=
  let p := startRoute w route
  match p.1 with
  | some srv =>
    { p.2 with active := p.2.active ++
        [{ name := nm, protocol := route.protocol, listen := route.listen,
           forward := route.forward, server := srv }] }
  | none => p.2

/-- The clients-map cleanup loop in stopAllProxies (lines 276-281): for a
UDP entry the wrapper's clients map is walked, each session's timer is
cleared and its outbound socket closed.  The map entries themselves are
not deleted.  A tcpServer has no clients field, so nothing happens. -/
def clearWrapperSessions (w : World) (s : JsServerObj) : World :=
  match s with
  | .udpWrap id =>
    match w.sessions.find? (fun p => p.1 = id) with
    | some pr =>
      { w with
        timers := w.timers.filter (fun t => pr.2.all (fun c => c.timerId ≠ t)),
        socks := w.socks.filter (fun so => pr.2.all (fun c => c.sockId ≠ so)) }
    | none => w
  | _ => w

/-- One iteration of the stopAllProxies loop (lines 270-289): inside
try/catch, close the stored server object (for UDP: first the clients-map
cleanup, then server.server.close() — which throws, because the stored
object is the plain wrapper), and log Stopped on success or the caught
error on failure. -/
def stopOneServer (w : World) (s : ActiveServer) : World :=
  if s.protocol = "tcp" then
    let r := closeServerObj w s.server
    if r.1 then logAt r.2 "info" ("Stopped TCP proxy " ++ s.name)
    else logAt r.2 "error" ("Failed to stop TCP proxy " ++ s.name ++ ": close is not a function")
  else if s.protocol = "udp" then
    let w₀ := clearWrapperSessions w s.server
    let r := closeServerObj w₀ s.server
    if r.1 then logAt r.2 "info" ("Stopped UDP proxy " ++ s.name)
    else logAt r.2 "error"
      ("Failed to stop UDP proxy " ++ s.name ++ ": server.server.close is not a function")
  else logAt w "info" ("Stopped " ++ s.protocol.toUpper ++ " proxy " ++ s.name)

/-- stopAllProxies (lines 269-292): run the per-listener teardown for every
entry, then set activeServers = []. -/
def stopAllProxies (w : World) : World :=
  let w₁ := w.active.foldl stopOneServer w
  { w₁ with active := [] }

/-- The route loop of startAllProxies (lines 244-264). -/
def startAllLoop : World → List Route → World
  | w, [] => w
  | w, r :: rest =>
    if r.enabled then startAllLoop (startAndRegister w r.name r) rest
    else startAllLoop w rest

/-- startAllProxies (lines 241-267): full teardown first, then attempt to
start every enabled route in table order, then log the count. -/
def startAllProxies (w : World) : World :=
  let w₁ := stopAllProxies w
  let w₂ := startAllLoop w₁ w₁.routes
  logAt w₂ "info" ("Started " ++ toString w₂.active.length ++ " proxies")

/-- The error handler installed on a tcpServer (lines 128-131): log, then
activeServers = activeServers.filter(s => s.server !== tcpServer). -/
def onTcpServerError (w : World) (routeName : String) (id : Nat) (errMsg : String) : World :=
  let w₁ := logAt w "error" (routeName ++ " TCP server error: " ++ errMsg)
  { w₁ with active := w₁.active.filter (fun s => s.server ≠ JsServerObj.tcpSrv id) }

/-- The error handler installed on a udpServer (lines 216-224): log, close
the dgram socket (inside try/catch; dgram close succeeds), then
activeServers = activeServers.filter(s => s.server !== udpServer).  Note
the filter compares against the raw dgram socket, while UDP entries store
the wrapper object. -/
def onUdpServerError (w : World) (routeName : String) (id : Nat) (errMsg : String) : World :=
  let w₁ := logAt w "error" (routeName ++ " UDP server error: " ++ errMsg)
  let w₂ := (closeServerObj w₁ (JsServerObj.udpSock id)).2
  { w₂ with active := w₂.active.filter (fun s => s.server ≠ JsServerObj.udpSock id) }

/-! ## The routeManager operations (lines 294-457) -/

/-- The shared stop-old-listener block of removeRoute (332-344),
updateRoute (363-376) and toggleRoute (433-443): find the active entry by
name; if present, inside try/catch call its server object's close() and
then filter it out of activeServers.  When close() throws (UDP entries
store the wrapper), the filter line is never reached and only the error is
logged. -/
def stopNamedServer (w : World) (n : String) : World :=
  match w.active.find? (fun s => s.name = n) with
  | none => w
  | some srv =>
    if srv.protocol = "tcp" ∨ srv.protocol = "udp" then
      let r := closeServerObj w srv.server
      if r.1 then { r.2 with active := r.2.active.filter (fun s => s.name ≠ n) }
      else logAt r.2 "error"
        ("Failed to stop server for route " ++ n ++ ": activeServer.server.close is not a function")
    else { w with active := w.active.filter (fun s => s.name ≠ n) }

/-- routeManager.addRoute (lines 295-324). -/
def addRoute (w : World) (cfg : Route) : RmResult × World :=
  match w.routes.find? (fun r => r.name = cfg.name) with
  | some _ => (⟨false, "Route with name " ++ cfg.name ++ " already exists"⟩, w)
  | none =>
    let w₁ := saveConfig { w with routes := w.routes ++ [cfg] }
    let w₂ := if cfg.enabled then startAndRegister w₁ cfg.name cfg else w₁
    (⟨true, "Route " ++ cfg.name ++ " added successfully"⟩, w₂)

/-- config.routes.splice(routeIndex, 1): drop the first route named n. -/
def removeFirst (rs : List Route) (n : String) : List Route :=
  match rs with
  | [] => []
  | r :: rest => if r.name = n then rest else r :: removeFirst rest n

/-- config.routes[routeIndex] = newRoute at the first index named n. -/
def replaceFirst (rs : List Route) (n : String) (nr : Route) : List Route :=
  match rs with
  | [] => []
  | r :: rest => if r.name = n then nr :: rest else r :: replaceFirst rest n nr

/-- Flip the enabled flag of the first route named n. -/
def flipFirst (rs : List Route) (n : String) : List Route :=
  match rs with
  | [] => []
  | r :: rest =>
    if r.name = n then { r with enabled := !r.enabled } :: rest
    else r :: flipFirst rest n

/-- routeManager.removeRoute (lines 326-350). -/
def removeRoute (w : World) (n : String) : RmResult × World :=
  match w.routes.find? (fun r => r.name = n) with
  | none => (⟨false, "Route " ++ n ++ " not found"⟩, w)
  | some _ =>
    let w₁ := stopNamedServer w n
    let w₂ := saveConfig { w₁ with routes := removeFirst w₁.routes n }
    (⟨true, "Route " ++ n ++ " removed successfully"⟩, w₂)

/-- routeManager.updateRoute (lines 352-398): replace the stored route
wholesale (forcing the stored name), persist, stop the old listener if
running, then start from the replacement definition if it is enabled. -/
def updateRoute (w : World) (n : String) (cfg : Route) : RmResult × World :=
  match w.routes.find? (fun r => r.name = n) with
  | none => (⟨false, "Route " ++ n ++ " not found"⟩, w)
  | some _ =>
    let w₁ := saveConfig { w with routes := replaceFirst w.routes n { cfg with name := n } }
    let w₂ := stopNamedServer w₁ n
    let w₃ := if cfg.enabled then startAndRegister w₂ n cfg else w₂
    (⟨true, "Route " ++ n ++ " updated successfully"⟩, w₃)

/-- routeManager.toggleRoute (lines 400-449). -/
def toggleRoute (w : World) (n : String) : RmResult × World :=
  match w.routes.find? (fun r => r.name = n) with
  | none => (⟨false, "Route " ++ n ++ " not found"⟩, w)
  | some _ =>
    let w₁ := saveConfig { w with routes := flipFirst w.routes n }
    match w₁.routes.find? (fun r => r.name = n) with
    | none => (⟨true, "Route " ++ n ++ " status unchanged"⟩, w₁)
    | some route =>
      if route.enabled = true ∧ w₁.active.find? (fun s => s.name = n) = none then
        (⟨true, "Route " ++ n ++ " enabled"⟩, startAndRegister w₁ n route)
      else if route.enabled = false ∧ (w₁.active.find? (fun s => s.name = n)).isSome then
        (⟨true, "Route " ++ n ++ " disabled"⟩, stopNamedServer w₁ n)
      else (⟨true, "Route " ++ n ++ " status unchanged"⟩, w₁)

/-! ## The HTTP control plane (handleApiRequest, lines 510-596) -/

/-- The JS value found in data.enabled of a request body, as far as the
check data.enabled !== false can distinguish it. -/
inductive JsVal where
  | jsTrue
  | jsFalse
  | absent
  | otherVal
deriving DecidableEq, Repr

/-- data.listen of a request body: host may be absent, port is modelled as
the already-parsed number (parseInt of the field). -/
structure ApiListen where
  host : Option String
  port : Nat
deriving DecidableEq, Repr

/-- data.forward of a request body: the code applies no default to
forward.host, it is passed through as given. -/
structure ApiForward where
  host : String
  port : Nat
deriving DecidableEq, Repr

/-- A parsed JSON request body as handleApiRequest sees it. -/
structure ApiBody where
  name : Option String
  protocol : Option String
  listen : Option ApiListen
  forward : Option ApiForward
  enabled : JsVal
deriving DecidableEq, Repr

/-- The JS expression x || d for a string field: absent (undefined) and
the empty string are falsy and replaced by the default. -/
def jsOrDefault (h : Option String) (d : String) : String :=
  match h with
  | none => d
  | some s => if s = "" then d else s

/-- The route object handleApiRequest builds for routeManager.addRoute
(lines 524-536) and routeManager.updateRoute (lines 550-561):
listen.host defaulted via || to 0.0.0.0, enabled set to
data.enabled !== false. -/
def apiRouteOfBody (nm proto : String) (l : ApiListen) (f : ApiForward) (en : JsVal) : Route :=
  { name := nm, protocol := proto,
    listen := { host := jsOrDefault l.host "0.0.0.0", port := l.port },
    forward := { host := f.host, port := f.port },
    enabled := decide ¬(en = JsVal.jsFalse) }

/-- POST /routes (lines 517-540): the required-field check
!data.name || !data.protocol || !data.listen || !data.forward answers 400
(modelled as none); otherwise the normalised route goes to addRoute. -/
def handleAddRoute (w : World) (b : ApiBody) : Option (RmResult × World) :=
  match b.name, b.protocol, b.listen, b.forward with
  | some nm, some proto, some l, some f =>
    if nm = "" ∨ proto = "" then none
    else some (addRoute w (apiRouteOfBody nm proto l f b.enabled))
  | _, _, _, _ => none

/-- PUT /routes/:name (lines 541-565): required-field check on protocol,
listen, forward; the body carries no name field (updateRoute overwrites
the name anyway), modelled by passing the empty name through. -/
def handleUpdateRoute (w : World) (routeName : String) (b : ApiBody) :
    Option (RmResult × World) :=
  match b.protocol, b.listen, b.forward with
  | some proto, some l, some f =>
    if proto = "" then none
    else some (updateRoute w routeName (apiRouteOfBody "" proto l f b.enabled))
  | _, _, _ => none

/-! ## Concrete states used to evaluate the code on failing inputs -/

/-- A running UDP route (dns, 0.0.0.0:5353 -> 1.1.1.1:53) with one live
session (client 9.9.9.9:1111, outbound socket 5, pending timer 6). -/
def wStopUdp : World :=
  { routes := [⟨"dns", "udp", ⟨"0.0.0.0", 5353⟩, ⟨"1.1.1.1", 53⟩, true⟩],
    active := [⟨"dns", "udp", ⟨"0.0.0.0", 5353⟩, ⟨"1.1.1.1", 53⟩, JsServerObj.udpWrap 0⟩],
    bound := [(JsServerObj.udpSock 0, "udp", ⟨"0.0.0.0", 5353⟩)],
    sessions := [(0, [⟨⟨"9.9.9.9", 1111⟩, 5, 6⟩])],
    timers := [6], socks := [5], nextId := 7, saves := 0, logs := [] }

/-- A running UDP route (dns, 0.0.0.0:53 -> 1.1.1.1:53), no sessions. -/
def wUpdUdp : World :=
  { routes := [⟨"dns", "udp", ⟨"0.0.0.0", 53⟩, ⟨"1.1.1.1", 53⟩, true⟩],
    active := [⟨"dns", "udp", ⟨"0.0.0.0", 53⟩, ⟨"1.1.1.1", 53⟩, JsServerObj.udpWrap 0⟩],
    bound := [(JsServerObj.udpSock 0, "udp", ⟨"0.0.0.0", 53⟩)],
    sessions := [(0, [])], timers := [], socks := [], nextId := 1, saves := 0, logs := [] }

/-- The replacement definition for dns: same listen address, new forward
target 2.2.2.2:53, still enabled. -/
def cfgUpdUdp : Route := ⟨"dns", "udp", ⟨"0.0.0.0", 53⟩, ⟨"2.2.2.2", 53⟩, true⟩

/-- A disabled UDP route (game) with no active listener. -/
def wTogUdp : World :=
  { routes := [⟨"game", "udp", ⟨"0.0.0.0", 9987⟩, ⟨"10.0.0.2", 9987⟩, false⟩],
    active := [], bound := [], sessions := [],
    timers := [], socks := [], nextId := 0, saves := 0, logs := [] }

/-- A route table with one route whose protocol is neither tcp nor udp
(here icmp), used to evaluate the silent-skip behaviour. -/
def wOther : World :=
  { routes := [⟨"ping", "icmp", ⟨"0.0.0.0", 7⟩, ⟨"h", 7⟩, false⟩],
    active := [], bound := [], sessions := [],
    timers := [], socks := [], nextId := 0, saves := 0, logs := [] }

/-- A second route definition with an unknown protocol. -/
def cfgOther : Route := ⟨"ping2", "icmp", ⟨"0.0.0.0", 8⟩, ⟨"h", 8⟩, true⟩

/-! ## Projection lemmas -/

@[simp] lemma logAt_routes (w : World) (a b : String) : (logAt w a b).routes = w.routes := rfl
@[simp] lemma logAt_active (w : World) (a b : String) : (logAt w a b).active = w.active := rfl
@[simp] lemma logAt_bound (w : World) (a b : String) : (logAt w a b).bound = w.bound := rfl
@[simp] lemma logAt_nextId (w : World) (a b : String) : (logAt w a b).nextId = w.nextId := rfl
@[simp] lemma logAt_saves (w : World) (a b : String) : (logAt w a b).saves = w.saves := rfl

@[simp] lemma saveConfig_routes (w : World) : (saveConfig w).routes = w.routes := rfl
@[simp] lemma saveConfig_active (w : World) : (saveConfig w).active = w.active := rfl
@[simp] lemma saveConfig_bound (w : World) : (saveConfig w).bound = w.bound := rfl

@[simp] lemma osBind_active (w : World) (s : JsServerObj) (p : String) (l : Endpoint) :
    (osBind w s p l).active = w.active := by
  unfold osBind; split <;> rfl

@[simp] lemma osBind_routes (w : World) (s : JsServerObj) (p : String) (l : Endpoint) :
    (osBind w s p l).routes = w.routes := by
  unfold osBind; split <;> rfl

@[simp] lemma closeServerObj_active (w : World) (s : JsServerObj) :
    ((closeServerObj w s).2).active = w.active := by
  cases s <;> rfl

@[simp] lemma closeServerObj_routes (w : World) (s : JsServerObj) :
    ((closeServerObj w s).2).routes = w.routes := by
  cases s <;> rfl

@[simp] lemma clearWrapperSessions_active (w : World) (s : JsServerObj) :
    (clearWrapperSessions w s).active = w.active := by
  unfold clearWrapperSessions
  split
  · split <;> rfl
  · rfl

@[simp] lemma clearWrapperSessions_routes (w : World) (s : JsServerObj) :
    (clearWrapperSessions w s).routes = w.routes := by
  unfold clearWrapperSessions
  split
  · split <;> rfl
  · rfl

@[simp] lemma stopOneServer_routes (w : World) (s : ActiveServer) :
    (stopOneServer w s).routes = w.routes := by
  unfold stopOneServer
  split_ifs
  · rcases hb : (closeServerObj w s.server).1 <;> simp [hb]
  · rcases hb : (closeServerObj (clearWrapperSessions w s.server) s.server).1 <;> simp [hb]
  · simp

lemma foldlStop_routes (l : List ActiveServer) (w : World) :
    (l.foldl stopOneServer w).routes = w.routes := by
  induction l generalizing w with
  | nil => rfl
  | cons a t ih => rw [List.foldl_cons, ih, stopOneServer_routes]

@[simp] lemma stopAllProxies_routes (w : World) : (stopAllProxies w).routes = w.routes := by
  unfold stopAllProxies
  exact foldlStop_routes w.active w

@[simp] lemma stopAllProxies_active (w : World) : (stopAllProxies w).active = [] := rfl

@[simp] lemma startTcpProxy_snd_active (w : World) (r : Route) :
    ((startTcpProxy w r).2).active = w.active := by
  unfold startTcpProxy; split <;> simp

@[simp] lemma startTcpProxy_snd_routes (w : World) (r : Route) :
    ((startTcpProxy w r).2).routes = w.routes := by
  unfold startTcpProxy; split <;> simp

@[simp] lemma startUdpProxy_snd_active (w : World) (r : Route) :
    ((startUdpProxy w r).2).active = w.active := by
  unfold startUdpProxy; split <;> simp

@[simp] lemma startUdpProxy_snd_routes (w : World) (r : Route) :
    ((startUdpProxy w r).2).routes = w.routes := by
  unfold startUdpProxy; split <;> simp

@[simp] lemma startRoute_snd_active (w : World) (r : Route) :
    ((startRoute w r).2).active = w.active := by
  unfold startRoute; split_ifs <;> simp

@[simp] lemma startRoute_snd_routes (w : World) (r : Route) :
    ((startRoute w r).2).routes = w.routes := by
  unfold startRoute; split_ifs <;> simp

@[simp] lemma startAndRegister_routes (w : World) (nm : String) (r : Route) :
    (startAndRegister w nm r).routes = w.routes := by
  unfold startAndRegister
  rcases h : (startRoute w r).1 with _ | srv <;> simp [h]

lemma startAndRegister_active_of_none (w : World) (nm : String) (r : Route)
    (h : (startRoute w r).1 = none) :
    (startAndRegister w nm r).active = w.active := by
  unfold startAndRegister
  simp [h]

lemma startAndRegister_active_of_some (w : World) (nm : String) (r : Route)
    (srv : JsServerObj) (h : (startRoute w r).1 = some srv) :
    (startAndRegister w nm r).active = w.active ++
      [{ name := nm, protocol := r.protocol, listen := r.listen,
         forward := r.forward, server := srv }] := by
  unfold startAndRegister
  simp [h]

lemma startRoute_some_proto (w : World) (r : Route) (srv : JsServerObj)
    (h : (startRoute w r).1 = some srv) :
    r.protocol = "tcp" ∨ r.protocol = "udp" := by
  unfold startRoute at h
  split_ifs at h with h1 h2
  · exact Or.inl h1
  · exact Or.inr h2

lemma startRoute_some_no_collision (w : World) (r : Route) (srv : JsServerObj)
    (h : (startRoute w r).1 = some srv) :
    hasCollision w.active r.protocol r.listen = false := by
  unfold startRoute at h
  split_ifs at h with h1 h2
  · rw [h1]
    unfold startTcpProxy at h
    rcases hc : hasCollision w.active "tcp" r.listen
    · rfl
    · rw [hc] at h; simp at h
  · rw [h2]
    unfold startUdpProxy at h
    rcases hc : hasCollision w.active "udp" r.listen
    · rfl
    · rw [hc] at h; simp at h

lemma startRoute_some_of_ok (w : World) (r : Route)
    (hp : r.protocol = "tcp" ∨ r.protocol = "udp")
    (hc : hasCollision w.active r.protocol r.listen = false) :
    ∃ srv, (startRoute w r).1 = some srv := by
  rcases hp with hp | hp <;>
    simp [startRoute, hp, startTcpProxy, startUdpProxy, hp ▸ hc]

lemma hasCollision_false_iff (as : List ActiveServer) (p : String) (l : Endpoint) :
    hasCollision as p l = false
      ↔ ∀ s ∈ as, ¬ collidesWith s.protocol s.listen p l := by
  unfold hasCollision
  rw [← Bool.not_eq_true, List.any_eq_true]
  constructor
  · intro h s hs hcol
    exact h ⟨s, hs, decide_eq_true hcol⟩
  · rintro h ⟨s, hs, hcol⟩
    exact h s hs (of_decide_eq_true hcol)

/-! ## Lemmas about the startAllProxies loop -/

/-- The loop only appends to activeServers, and the names of the appended
entries are a subsequence of the names of the enabled routes. -/
lemma startAllLoop_shape (rs : List Route) :
    ∀ w : World, ∃ tail : List ActiveServer,
      (startAllLoop w rs).active = w.active ++ tail
      ∧ List.Sublist (tail.map (fun s => s.name))
          ((rs.filter (fun r => r.enabled)).map (fun r => r.name)) := by
  induction rs with
  | nil => exact fun w => ⟨[], by simp [startAllLoop]⟩
  | cons r rest ih =>
    intro w
    by_cases he : r.enabled
    · have hloop : startAllLoop w (r :: rest) = startAllLoop (startAndRegister w r.name r) rest := by
        simp [startAllLoop, he]
      have hfil : (r :: rest).filter (fun q => q.enabled) = r :: rest.filter (fun q => q.enabled) := by
        simp [List.filter_cons, he]
      rcases hs : (startRoute w r).1 with _ | srv
      · obtain ⟨tail, h1, h2⟩ := ih (startAndRegister w r.name r)
        refine ⟨tail, ?_, ?_⟩
        · rw [hloop, h1, startAndRegister_active_of_none w r.name r hs]
        · rw [hfil]
          exact h2.trans ((List.sublist_cons_self _ _).map _)
      · obtain ⟨tail, h1, h2⟩ := ih (startAndRegister w r.name r)
        refine ⟨{ name := r.name, protocol := r.protocol, listen := r.listen,
                  forward := r.forward, server := srv } :: tail, ?_, ?_⟩
        · rw [hloop, h1, startAndRegister_active_of_some w r.name r srv hs,
            List.append_assoc]
          rfl
        · rw [hfil]
          simpa using List.Sublist.cons₂ r.name h2
    · have hloop : startAllLoop w (r :: rest) = startAllLoop w rest := by
        simp [startAllLoop, he]
      have hfil : (r :: rest).filter (fun q => q.enabled) = rest.filter (fun q => q.enabled) := by
        simp [List.filter_cons, he]
      rw [hloop, hfil]
      exact ih w

/-- Every entry the loop leaves in activeServers either was there before
the loop or records the name, protocol, listen and forward of some enabled
route of the processed list. -/
lemma startAllLoop_provenance (rs : List Route) :
    ∀ (w : World) (s : ActiveServer), s ∈ (startAllLoop w rs).active →
      s ∈ w.active ∨ ∃ r ∈ rs, r.enabled = true ∧ s.name = r.name
        ∧ s.protocol = r.protocol ∧ s.listen = r.listen ∧ s.forward = r.forward := by
  induction rs with
  | nil =>
    intro w s hmem
    exact Or.inl (by simpa [startAllLoop] using hmem)
  | cons r rest ih =>
    intro w s hmem
    by_cases he : r.enabled
    · rw [show startAllLoop w (r :: rest) = startAllLoop (startAndRegister w r.name r) rest from
        by simp [startAllLoop, he]] at hmem
      rcases ih _ s hmem with hin | ⟨q, hq, hqe, hrest⟩
      · rcases hs : (startRoute w r).1 with _ | srv
        · rw [startAndRegister_active_of_none w r.name r hs] at hin
          exact Or.inl hin
        · rw [startAndRegister_active_of_some w r.name r srv hs] at hin
          rcases List.mem_append.mp hin with hin | hin
          · exact Or.inl hin
          · rcases List.mem_singleton.mp hin with rfl
            exact Or.inr ⟨r, List.mem_cons_self r rest, he, rfl, rfl, rfl, rfl⟩
      · exact Or.inr ⟨q, List.mem_cons_of_mem r hq, hqe, hrest⟩
    · rw [show startAllLoop w (r :: rest) = startAllLoop w rest from
        by simp [startAllLoop, he]] at hmem
      rcases ih w s hmem with hin | ⟨q, hq, hqe, hrest⟩
      · exact Or.inl hin
      · exact Or.inr ⟨q, List.mem_cons_of_mem r hq, hqe, hrest⟩

/-- The loop preserves pairwise (protocol, host, port) distinctness of the
active set: an entry is only pushed after its collision pre-check passed
against everything already active. -/
lemma startAllLoop_pairwise (rs : List Route) :
    ∀ w : World,
      w.active.Pairwise (fun a b => ¬ collidesWith a.protocol a.listen b.protocol b.listen) →
      (startAllLoop w rs).active.Pairwise
        (fun a b => ¬ collidesWith a.protocol a.listen b.protocol b.listen) := by
  induction rs with
  | nil => intro w h; simpa [startAllLoop] using h
  | cons r rest ih =>
    intro w h
    by_cases he : r.enabled
    · rw [show startAllLoop w (r :: rest) = startAllLoop (startAndRegister w r.name r) rest from
        by simp [startAllLoop, he]]
      refine ih _ ?_
      rcases hs : (startRoute w r).1 with _ | srv
      · rwa [startAndRegister_active_of_none w r.name r hs]
      · rw [startAndRegister_active_of_some w r.name r srv hs]
        rw [List.pairwise_append]
        refine ⟨h, List.pairwise_singleton _ _, ?_⟩
        intro a ha b hb
        rcases List.mem_singleton.mp hb with rfl
        have hnc := (hasCollision_false_iff w.active r.protocol r.listen).mp
          (startRoute_some_no_collision w r srv hs)
        exact hnc a ha
    · rw [show startAllLoop w (r :: rest) = startAllLoop w rest from
        by simp [startAllLoop, he]]
      exact ih w h

/-- If no entry already active collides with route r, and no enabled route
before r in the remaining list collides with r, then r ends up started: its
name is in the active set after the loop, whatever happens to the routes
around it. -/
lemma startAllLoop_isolation (l : List Route) :
    ∀ (r : Route) (rest : List Route) (w : World),
      (∀ s ∈ w.active, ¬ collidesWith s.protocol s.listen r.protocol r.listen) →
      r.enabled = true →
      (r.protocol = "tcp" ∨ r.protocol = "udp") →
      (∀ q ∈ l, q.enabled = true → ¬ collidesWith q.protocol q.listen r.protocol r.listen) →
      r.name ∈ (startAllLoop w (l ++ r :: rest)).active.map (fun s => s.name) := by
  induction l with
  | nil =>
    intro r rest w hinv he hp _
    have hnc : hasCollision w.active r.protocol r.listen = false :=
      (hasCollision_false_iff w.active r.protocol r.listen).mpr hinv
    obtain ⟨srv, hs⟩ := startRoute_some_of_ok w r hp hnc
    rw [List.nil_append,
      show startAllLoop w (r :: rest) = startAllLoop (startAndRegister w r.name r) rest from
        by simp [startAllLoop, he]]
    obtain ⟨tail, h1, _⟩ := startAllLoop_shape rest (startAndRegister w r.name r)
    rw [h1, startAndRegister_active_of_some w r.name r srv hs]
    simp
  | cons q l ih =>
    intro r rest w hinv he hp hl
    rw [List.cons_append]
    by_cases hqe : q.enabled
    · rw [show startAllLoop w (q :: (l ++ r :: rest))
          = startAllLoop (startAndRegister w q.name q) (l ++ r :: rest) from
        by simp [startAllLoop, hqe]]
      refine ih r rest _ ?_ he hp (fun q' hq' => hl q' (List.mem_cons_of_mem q hq'))
      intro s hs
      rcases hst : (startRoute w q).1 with _ | srv
      · rw [startAndRegister_active_of_none w q.name q hst] at hs
        exact hinv s hs
      · rw [startAndRegister_active_of_some w q.name q srv hst] at hs
        rcases List.mem_append.mp hs with hs | hs
        · exact hinv s hs
        · rcases List.mem_singleton.mp hs with rfl
          exact hl q (List.mem_cons_self q l) hqe
    · rw [show startAllLoop w (q :: (l ++ r :: rest)) = startAllLoop w (l ++ r :: rest) from
        by simp [startAllLoop, hqe]]
      exact ih r rest w hinv he hp (fun q' hq' => hl q' (List.mem_cons_of_mem q hq'))

/-- The loop preserves "every active entry is tcp or udp": entries are only
pushed from the tcp or udp branch of the protocol dispatch. -/
lemma startAllLoop_proto (rs : List Route) :
    ∀ w : World,
      (∀ s ∈ w.active, s.protocol = "tcp" ∨ s.protocol = "udp") →
      ∀ s ∈ (startAllLoop w rs).active, s.protocol = "tcp" ∨ s.protocol = "udp" := by
  induction rs with
  | nil => intro w h; simpa [startAllLoop] using h
  | cons r rest ih =>
    intro w h
    by_cases he : r.enabled
    · rw [show startAllLoop w (r :: rest) = startAllLoop (startAndRegister w r.name r) rest from
        by simp [startAllLoop, he]]
      refine ih _ ?_
      rcases hs : (startRoute w r).1 with _ | srv
      · rw [startAndRegister_active_of_none w r.name r hs]; exact h
      · rw [startAndRegister_active_of_some w r.name r srv hs]
        intro s hsmem
        rcases List.mem_append.mp hsmem with hsmem | hsmem
        · exact h s hsmem
        · rcases List.mem_singleton.mp hsmem with rfl
          exact startRoute_some_proto w r srv hs
    · rw [show startAllLoop w (r :: rest) = startAllLoop w rest from
        by simp [startAllLoop, he]]
      exact ih w h

/-- find? after flipFirst: the first route with the given name has exactly
its enabled flag negated. -/
lemma find?_flipFirst (rs : List Route) (n : String) (r₀ : Route)
    (h : rs.find? (fun r => r.name = n) = some r₀) :
    (flipFirst rs n).find? (fun r => r.name = n) = some { r₀ with enabled := !r₀.enabled } := by
  induction rs with
  | nil => simp at h
  | cons r rest ih =>
    by_cases hn : r.name = n
    · rw [List.find?_cons_of_pos _ (by simpa using hn)] at h
      rcases Option.some.inj h with rfl
      unfold flipFirst
      rw [if_pos hn]
      exact List.find?_cons_of_pos _ (by simpa using hn)
    · rw [List.find?_cons_of_neg _ (by simpa using hn)] at h
      unfold flipFirst
      rw [if_neg hn]
      rw [List.find?_cons_of_neg _ (by simpa using hn)]
      exact ih h

lemma startAllProxies_active_eq (w : World) :
    (startAllProxies w).active = (startAllLoop (stopAllProxies w) w.routes).active := by
  unfold startAllProxies
  rw [logAt_active, stopAllProxies_routes]

lemma stopNamedServer_noop (w : World) (n : String)
    (h : w.active.find? (fun s => s.name = n) = none) : stopNamedServer w n = w := by
  unfold stopNamedServer
  rw [h]

lemma startRoute_other (w : World) (r : Route)
    (hp1 : r.protocol ≠ "tcp") (hp2 : r.protocol ≠ "udp") :
    startRoute w r = (none, w) := by
  unfold startRoute
  rw [if_neg hp1, if_neg hp2]

lemma startAndRegister_other (w : World) (nm : String) (r : Route)
    (hp1 : r.protocol ≠ "tcp") (hp2 : r.protocol ≠ "udp") :
    startAndRegister w nm r = w := by
  unfold startAndRegister
  rw [startRoute_other w r hp1 hp2]

/-! Helper lemmas about the session map. -/

lemma findSession_setSessionTimer (cs : List Session) (k : Endpoint) (t : Nat) :
    findSession (setSessionTimer cs k t) k
      = (findSession cs k).map (fun s => { s with timerId := t }) := by
  induction cs with
  | nil => rfl
  | cons c cs ih =>
    by_cases h : c.key = k
    · simp [findSession, setSessionTimer, List.find?_cons, h] at ih ⊢
    · simp [findSession, setSessionTimer, List.find?_cons, h] at ih ⊢
      exact ih

lemma findSession_append_of_none (cs ds : List Session) (k : Endpoint)
    (h : findSession cs k = none) :
    findSession (cs ++ ds) k = findSession ds k := by
  unfold findSession at h ⊢
  rw [List.find?_append, h]
  rfl

lemma timer_lt_of_findSession (st : UdpState) (k : Endpoint) (s : Session)
    (hC : ∀ c ∈ st.clients, c.timerId < st.nextId)
    (h : findSession st.clients k = some s) : s.timerId < st.nextId :=
  hC s (List.mem_of_find?_eq_some h)

/-- C1 (amended form), stated over the embedded handlers: for every inbound
client datagram, the session's pending idle timer is cancelled and a fresh
one is started; a backend reply never changes the session state at all.
The hypotheses say the fresh-id counter dominates every live timer handle,
which every reachable state satisfies. -/
theorem udp_timer_reset (st : UdpState) (rinfo : Endpoint)
    (hT : ∀ t ∈ st.timers, t < st.nextId)
    (hC : ∀ c ∈ st.clients, c.timerId < st.nextId) :
    (∃ t', sessionTimer (onClientDatagram st rinfo) rinfo = some t'
        ∧ t' ∈ (onClientDatagram st rinfo).timers
        ∧ t' ∉ st.timers)
    ∧ (∀ t₀, sessionTimer st rinfo = some t₀ →
        t₀ ∉ (onClientDatagram st rinfo).timers)
    ∧ (∀ (st' : UdpState) (k : Endpoint) (m : String),
        onBackendReply st' k m = (st', (k, m))) := by
  rcases hfind : findSession st.clients rinfo with _ | sess
  · -- no session yet: one is created, its initial timer immediately reset
    have hstep : onClientDatagram st rinfo =
        { clients := setSessionTimer
            (st.clients ++ [{ key := rinfo, sockId := st.nextId, timerId := st.nextId + 1 }])
            rinfo (st.nextId + 2),
          timers := (st.nextId + 2) ::
            ((st.nextId + 1) :: st.timers).filter (fun t => t ≠ st.nextId + 1),
          socks := st.nextId :: st.socks,
          nextId := st.nextId + 3 } := by
      have hnew : findSession
          (st.clients ++ [{ key := rinfo, sockId := st.nextId, timerId := st.nextId + 1 }])
          rinfo = some { key := rinfo, sockId := st.nextId, timerId := st.nextId + 1 } := by
        rw [findSession_append_of_none _ _ _ hfind]
        simp [findSession, List.find?_cons]
      simp only [onClientDatagram, hfind, Option.isSome_none, Bool.false_eq_true, if_false]
      rw [hnew]
    refine ⟨⟨st.nextId + 2, ?_, ?_, ?_⟩, ?_, fun _ _ _ => rfl⟩
    · rw [hstep]
      simp only [sessionTimer]
      rw [findSession_setSessionTimer, findSession_append_of_none _ _ _ hfind]
      simp [findSession, List.find?_cons]
    · rw [hstep]; exact List.mem_cons_self _ _
    · intro hmem
      exact absurd (hT _ hmem) (by omega)
    · intro t₀ ht₀
      simp [sessionTimer, hfind] at ht₀
  · -- session exists: its timer is cleared and replaced by a fresh one
    have hsome : (findSession st.clients rinfo).isSome := by rw [hfind]; rfl
    have hstep : onClientDatagram st rinfo =
        { clients := setSessionTimer st.clients rinfo st.nextId,
          timers := st.nextId :: st.timers.filter (fun t => t ≠ sess.timerId),
          socks := st.socks,
          nextId := st.nextId + 1 } := by
      simp only [onClientDatagram, hsome, if_true]
      rw [hfind]
    have hlt : sess.timerId < st.nextId := timer_lt_of_findSession st rinfo sess hC hfind
    refine ⟨⟨st.nextId, ?_, ?_, ?_⟩, ?_, fun _ _ _ => rfl⟩
    · rw [hstep]
      simp only [sessionTimer]
      rw [findSession_setSessionTimer, hfind]
      rfl
    · rw [hstep]; exact List.mem_cons_self _ _
    · intro hmem
      exact absurd (hT _ hmem) (by omega)
    · intro t₀ ht₀
      have ht₀' : t₀ = sess.timerId := by
        simp [sessionTimer, hfind] at ht₀; omega
      subst ht₀'
      rw [hstep]
      intro hmem
      rcases List.mem_cons.mp hmem with h | h
      · omega
      · rcases List.mem_filter.mp h with ⟨_, hne⟩
        simp at hne

/-- Witness for udp_timer_reset at a concrete state: one session for client
10.0.0.1:4000 with pending timer 6, counter 7. -/
theorem udp_timer_reset_witness :
    ((∀ t ∈ ([6] : List Nat), t < 7)
      ∧ (∀ c ∈ [Session.mk ⟨"10.0.0.1", 4000⟩ 5 6], c.timerId < 7))
    ∧ ((∃ t', sessionTimer
          (onClientDatagram ⟨[⟨⟨"10.0.0.1", 4000⟩, 5, 6⟩], [6], [5], 7⟩ ⟨"10.0.0.1", 4000⟩)
          ⟨"10.0.0.1", 4000⟩ = some t'
        ∧ t' ∈ (onClientDatagram ⟨[⟨⟨"10.0.0.1", 4000⟩, 5, 6⟩], [6], [5], 7⟩
            ⟨"10.0.0.1", 4000⟩).timers
        ∧ t' ∉ ([6] : List Nat))
      ∧ (∀ t₀, sessionTimer ⟨[⟨⟨"10.0.0.1", 4000⟩, 5, 6⟩], [6], [5], 7⟩ ⟨"10.0.0.1", 4000⟩
            = some t₀ →
          t₀ ∉ (onClientDatagram ⟨[⟨⟨"10.0.0.1", 4000⟩, 5, 6⟩], [6], [5], 7⟩
            ⟨"10.0.0.1", 4000⟩).timers)
      ∧ (∀ (st' : UdpState) (k : Endpoint) (m : String),
          onBackendReply st' k m = (st', (k, m)))) :=
  ⟨⟨by decide, by decide⟩,
    udp_timer_reset ⟨[⟨⟨"10.0.0.1", 4000⟩, 5, 6⟩], [6], [5], 7⟩ ⟨"10.0.0.1", 4000⟩
      (by decide) (by decide)⟩

/-- C1 as stated is false: a reply datagram arriving on a session's
dedicated outbound socket from the backend does not cancel or restart the
session's idle timer.  Concretely, with one session for 10.0.0.1:4000 whose
pending timer handle is 6, processing a backend reply for that session
leaves the whole state unchanged: timer 6 is still the pending timer and no
fresh timer is started. -/
theorem udp_backend_reply_no_reset :
    onBackendReply ⟨[⟨⟨"10.0.0.1", 4000⟩, 5, 6⟩], [6], [5], 7⟩ ⟨"10.0.0.1", 4000⟩ "pong"
      = (⟨[⟨⟨"10.0.0.1", 4000⟩, 5, 6⟩], [6], [5], 7⟩, (⟨"10.0.0.1", 4000⟩, "pong"))
    ∧ sessionTimer
        (onBackendReply ⟨[⟨⟨"10.0.0.1", 4000⟩, 5, 6⟩], [6], [5], 7⟩
          ⟨"10.0.0.1", 4000⟩ "pong").1 ⟨"10.0.0.1", 4000⟩ = some 6
    ∧ (onBackendReply ⟨[⟨⟨"10.0.0.1", 4000⟩, 5, 6⟩], [6], [5], 7⟩
          ⟨"10.0.0.1", 4000⟩ "pong").1.timers = [6] := by
  refine ⟨rfl, ?_, rfl⟩
  decide

/-- C2: false on the code (code bug).  Stopping a UDP listener does walk
its session table first — every session timer is cancelled and every
session outbound socket closed — but the listening socket itself is never
released: activeServers stores the plain wrapper object returned by
startUdpProxy, and server.server.close() on that wrapper throws a
TypeError that the catch block swallows.  Evaluated on a world with one
running UDP listener: after stopAllProxies the active set is empty and the
session resources are gone, yet the dgram socket is still OS-bound; a
subsequent startAllProxies therefore cannot re-bind the address — the
stale socket still holds it, and the fresh listener's socket never
becomes bound. -/
theorem stopAllProxies_udp_socket_never_released :
    (stopAllProxies wStopUdp).active = []
    ∧ (stopAllProxies wStopUdp).timers = []
    ∧ (stopAllProxies wStopUdp).socks = []
    ∧ (stopAllProxies wStopUdp).bound
        = [(JsServerObj.udpSock 0, "udp", ⟨"0.0.0.0", 5353⟩)]
    ∧ (startAllProxies wStopUdp).active.map (fun s => s.server)
        = [JsServerObj.udpWrap 7]
    ∧ (startAllProxies wStopUdp).bound
        = [(JsServerObj.udpSock 0, "udp", ⟨"0.0.0.0", 5353⟩)] := by
  decide

/-- C3: false on the code (code bug).  updateRoute on a running UDP route
tries to stop the prior listener with activeServer.server.close(), but for
UDP entries that stored object is the plain wrapper, so close() throws;
the catch swallows the error and the line removing the entry from
activeServers is never reached.  The replacement then fails its collision
pre-check against the stale entry.  Evaluated on a running UDP route dns
whose forward target is changed from 1.1.1.1:53 to 2.2.2.2:53: the call
reports success and stores the new definition, but the old listener is
still the one registered and bound, so traffic keeps flowing to the old
target. -/
theorem updateRoute_udp_keeps_old_listener :
    (updateRoute wUpdUdp "dns" cfgUpdUdp).1.success = true
    ∧ (updateRoute wUpdUdp "dns" cfgUpdUdp).2.routes = [cfgUpdUdp]
    ∧ (updateRoute wUpdUdp "dns" cfgUpdUdp).2.active = wUpdUdp.active
    ∧ (updateRoute wUpdUdp "dns" cfgUpdUdp).2.active.map (fun s => s.forward)
        = [⟨"1.1.1.1", 53⟩]
    ∧ (updateRoute wUpdUdp "dns" cfgUpdUdp).2.bound = wUpdUdp.bound := by
  decide

/-- C4: false on the code for UDP listeners (code bug).  The udpServer
error handler filters activeServers with s.server !== udpServer, but UDP
entries store the wrapper object, never the raw dgram socket, so the
filter removes nothing.  Evaluated on a world with one running UDP
listener: after its post-bind error fires, the listener is still in the
active set (only its socket got closed), where the claim says exactly that
listener is removed.  (For TCP listeners the same handler does remove the
entry.) -/
theorem udpServerError_removes_nothing :
    (onUdpServerError wUpdUdp "dns" 0 "some failure").active = wUpdUdp.active
    ∧ wUpdUdp.active ≠ []
    ∧ (onUdpServerError wUpdUdp "dns" 0 "some failure").bound = [] := by
  decide

/-- C8: false on the code for UDP routes (code bug).  Toggling a disabled,
inactive UDP route twice: the first toggle enables it and starts a
listener; the second flips enabled back to false and tries to stop the
listener, but activeServer.server.close() throws on the stored wrapper
object and the removal from activeServers is skipped.  After the two
toggles the enabled flag is restored to false, yet a listener for the name
is present (and its socket still bound), where originally there was
none. -/
theorem toggleRoute_twice_udp_listener_left_behind :
    wTogUdp.active = []
    ∧ (toggleRoute (toggleRoute wTogUdp "game").2 "game").1.success = true
    ∧ (toggleRoute (toggleRoute wTogUdp "game").2 "game").2.routes.map (fun r => r.enabled)
        = [false]
    ∧ (toggleRoute (toggleRoute wTogUdp "game").2 "game").2.active.map (fun s => s.name)
        = ["game"]
    ∧ (toggleRoute (toggleRoute wTogUdp "game").2 "game").2.bound
        = [(JsServerObj.udpSock 0, "udp", ⟨"0.0.0.0", 9987⟩)] := by
  decide

/-- C5: confirmed.  (i)/(ii) If some currently active listener has the
same (protocol, host, port), startTcpProxy / startUdpProxy return null
immediately: no server object is created (the fresh-id counter is
untouched), no OS bind is attempted (the bound set is untouched), the
active set is untouched — the previously active listener stays — and
exactly the address-in-use warning is logged.  (iii) Consequently the
active set left by startAllProxies never holds two listeners with the same
(protocol, host, port). -/
theorem start_precheck_and_uniqueness (w : World) (r : Route) :
    (hasCollision w.active "tcp" r.listen = true →
      (startTcpProxy w r).1 = none
      ∧ (startTcpProxy w r).2.active = w.active
      ∧ (startTcpProxy w r).2.bound = w.bound
      ∧ (startTcpProxy w r).2.nextId = w.nextId
      ∧ (startTcpProxy w r).2.logs
          = ("warn", "TCP proxy for " ++ r.name ++ " cannot start: Address already in use")
            :: w.logs)
    ∧ (hasCollision w.active "udp" r.listen = true →
      (startUdpProxy w r).1 = none
      ∧ (startUdpProxy w r).2.active = w.active
      ∧ (startUdpProxy w r).2.bound = w.bound
      ∧ (startUdpProxy w r).2.nextId = w.nextId
      ∧ (startUdpProxy w r).2.logs
          = ("warn", "UDP proxy for " ++ r.name ++ " cannot start: Address already in use")
            :: w.logs)
    ∧ (startAllProxies w).active.Pairwise
        (fun a b => ¬ collidesWith a.protocol a.listen b.protocol b.listen) := by
  refine ⟨?_, ?_, ?_⟩
  · intro h
    unfold startTcpProxy
    rw [if_pos h]
    exact ⟨rfl, rfl, rfl, rfl, rfl⟩
  · intro h
    unfold startUdpProxy
    rw [if_pos h]
    exact ⟨rfl, rfl, rfl, rfl, rfl⟩
  · rw [startAllProxies_active_eq]
    exact startAllLoop_pairwise w.routes (stopAllProxies w)
      (by rw [stopAllProxies_active]; exact List.Pairwise.nil)

/-- Witness for start_precheck_and_uniqueness: a world with one active TCP
listener on 0.0.0.0:80 and a second route for the same address. -/
theorem start_precheck_and_uniqueness_witness :
    (hasCollision
        (World.mk [] [⟨"web", "tcp", ⟨"0.0.0.0", 80⟩, ⟨"b", 8080⟩, JsServerObj.tcpSrv 0⟩]
          [(JsServerObj.tcpSrv 0, "tcp", ⟨"0.0.0.0", 80⟩)] [] [] [] 1 0 []).active
        "tcp" (Route.mk "web2" "tcp" ⟨"0.0.0.0", 80⟩ ⟨"c", 9090⟩ true).listen = true)
    ∧ ((startTcpProxy
          (World.mk [] [⟨"web", "tcp", ⟨"0.0.0.0", 80⟩, ⟨"b", 8080⟩, JsServerObj.tcpSrv 0⟩]
            [(JsServerObj.tcpSrv 0, "tcp", ⟨"0.0.0.0", 80⟩)] [] [] [] 1 0 [])
          (Route.mk "web2" "tcp" ⟨"0.0.0.0", 80⟩ ⟨"c", 9090⟩ true)).1 = none
      ∧ (startTcpProxy
          (World.mk [] [⟨"web", "tcp", ⟨"0.0.0.0", 80⟩, ⟨"b", 8080⟩, JsServerObj.tcpSrv 0⟩]
            [(JsServerObj.tcpSrv 0, "tcp", ⟨"0.0.0.0", 80⟩)] [] [] [] 1 0 [])
          (Route.mk "web2" "tcp" ⟨"0.0.0.0", 80⟩ ⟨"c", 9090⟩ true)).2.active
          = (World.mk [] [⟨"web", "tcp", ⟨"0.0.0.0", 80⟩, ⟨"b", 8080⟩, JsServerObj.tcpSrv 0⟩]
            [(JsServerObj.tcpSrv 0, "tcp", ⟨"0.0.0.0", 80⟩)] [] [] [] 1 0 []).active
      ∧ (startTcpProxy
          (World.mk [] [⟨"web", "tcp", ⟨"0.0.0.0", 80⟩, ⟨"b", 8080⟩, JsServerObj.tcpSrv 0⟩]
            [(JsServerObj.tcpSrv 0, "tcp", ⟨"0.0.0.0", 80⟩)] [] [] [] 1 0 [])
          (Route.mk "web2" "tcp" ⟨"0.0.0.0", 80⟩ ⟨"c", 9090⟩ true)).2.bound
          = (World.mk [] [⟨"web", "tcp", ⟨"0.0.0.0", 80⟩, ⟨"b", 8080⟩, JsServerObj.tcpSrv 0⟩]
            [(JsServerObj.tcpSrv 0, "tcp", ⟨"0.0.0.0", 80⟩)] [] [] [] 1 0 []).bound
      ∧ (startTcpProxy
          (World.mk [] [⟨"web", "tcp", ⟨"0.0.0.0", 80⟩, ⟨"b", 8080⟩, JsServerObj.tcpSrv 0⟩]
            [(JsServerObj.tcpSrv 0, "tcp", ⟨"0.0.0.0", 80⟩)] [] [] [] 1 0 [])
          (Route.mk "web2" "tcp" ⟨"0.0.0.0", 80⟩ ⟨"c", 9090⟩ true)).2.nextId
          = (World.mk [] [⟨"web", "tcp", ⟨"0.0.0.0", 80⟩, ⟨"b", 8080⟩, JsServerObj.tcpSrv 0⟩]
            [(JsServerObj.tcpSrv 0, "tcp", ⟨"0.0.0.0", 80⟩)] [] [] [] 1 0 []).nextId
      ∧ (startTcpProxy
          (World.mk [] [⟨"web", "tcp", ⟨"0.0.0.0", 80⟩, ⟨"b", 8080⟩, JsServerObj.tcpSrv 0⟩]
            [(JsServerObj.tcpSrv 0, "tcp", ⟨"0.0.0.0", 80⟩)] [] [] [] 1 0 [])
          (Route.mk "web2" "tcp" ⟨"0.0.0.0", 80⟩ ⟨"c", 9090⟩ true)).2.logs
          = ("warn", "TCP proxy for "
              ++ (Route.mk "web2" "tcp" ⟨"0.0.0.0", 80⟩ ⟨"c", 9090⟩ true).name
              ++ " cannot start: Address already in use")
            :: (World.mk [] [⟨"web", "tcp", ⟨"0.0.0.0", 80⟩, ⟨"b", 8080⟩, JsServerObj.tcpSrv 0⟩]
              [(JsServerObj.tcpSrv 0, "tcp", ⟨"0.0.0.0", 80⟩)] [] [] [] 1 0 []).logs) :=
  ⟨by decide,
    (start_precheck_and_uniqueness
      (World.mk [] [⟨"web", "tcp", ⟨"0.0.0.0", 80⟩, ⟨"b", 8080⟩, JsServerObj.tcpSrv 0⟩]
        [(JsServerObj.tcpSrv 0, "tcp", ⟨"0.0.0.0", 80⟩)] [] [] [] 1 0 [])
      (Route.mk "web2" "tcp" ⟨"0.0.0.0", 80⟩ ⟨"c", 9090⟩ true)).1 (by decide)⟩

/-- C6: confirmed.  startAllProxies stops everything first (the registry's
active set is emptied by stopAllProxies before the start loop runs), then
attempts exactly the enabled routes in table order: the names of the
resulting listeners form a subsequence of the names of the enabled routes
(so a failed route is skipped, not registered), every resulting listener
records an enabled route's definition, and any enabled tcp/udp route that
collides with no enabled route before it in the table does get started —
failures of other routes never abort the pass. -/
theorem startAll_skips_failures_and_continues (w : World) :
    List.Sublist ((startAllProxies w).active.map (fun s => s.name))
      ((w.routes.filter (fun r => r.enabled)).map (fun r => r.name))
    ∧ (∀ s ∈ (startAllProxies w).active, ∃ r ∈ w.routes, r.enabled = true
        ∧ s.name = r.name ∧ s.protocol = r.protocol
        ∧ s.listen = r.listen ∧ s.forward = r.forward)
    ∧ (∀ (l : List Route) (r : Route) (rest : List Route),
        w.routes = l ++ r :: rest → r.enabled = true →
        (r.protocol = "tcp" ∨ r.protocol = "udp") →
        (∀ q ∈ l, q.enabled = true → ¬ collidesWith q.protocol q.listen r.protocol r.listen) →
        r.name ∈ (startAllProxies w).active.map (fun s => s.name))
    ∧ (stopAllProxies w).active = [] := by
  refine ⟨?_, ?_, ?_, rfl⟩
  · rw [startAllProxies_active_eq]
    obtain ⟨tail, h1, h2⟩ := startAllLoop_shape w.routes (stopAllProxies w)
    rw [h1, stopAllProxies_active, List.nil_append]
    exact h2
  · intro s hs
    rw [startAllProxies_active_eq] at hs
    rcases startAllLoop_provenance w.routes (stopAllProxies w) s hs with hin | hout
    · rw [stopAllProxies_active] at hin
      exact absurd hin (List.not_mem_nil s)
    · exact hout
  · intro l r rest hsplit he hp hl
    rw [startAllProxies_active_eq, hsplit]
    refine startAllLoop_isolation l r rest (stopAllProxies w) ?_ he hp hl
    intro s hs
    rw [stopAllProxies_active] at hs
    exact absurd hs (List.not_mem_nil s)

/-- Witness for startAll_skips_failures_and_continues: routes a, a2
(colliding with a) and b; in the same pass a starts, a2 fails its
pre-check and is skipped, and b still starts. -/
theorem startAll_skips_failures_and_continues_witness :
    ((World.mk
        [⟨"a", "tcp", ⟨"0.0.0.0", 81⟩, ⟨"h1", 91⟩, true⟩,
         ⟨"a2", "tcp", ⟨"0.0.0.0", 81⟩, ⟨"h2", 92⟩, true⟩,
         ⟨"b", "tcp", ⟨"0.0.0.0", 82⟩, ⟨"h3", 93⟩, true⟩]
        [] [] [] [] [] 0 0 []).routes
      = [⟨"a", "tcp", ⟨"0.0.0.0", 81⟩, ⟨"h1", 91⟩, true⟩,
         ⟨"a2", "tcp", ⟨"0.0.0.0", 81⟩, ⟨"h2", 92⟩, true⟩]
        ++ Route.mk "b" "tcp" ⟨"0.0.0.0", 82⟩ ⟨"h3", 93⟩ true :: []
      ∧ (Route.mk "b" "tcp" ⟨"0.0.0.0", 82⟩ ⟨"h3", 93⟩ true).enabled = true
      ∧ ((Route.mk "b" "tcp" ⟨"0.0.0.0", 82⟩ ⟨"h3", 93⟩ true).protocol = "tcp"
          ∨ (Route.mk "b" "tcp" ⟨"0.0.0.0", 82⟩ ⟨"h3", 93⟩ true).protocol = "udp")
      ∧ (∀ q ∈ [Route.mk "a" "tcp" ⟨"0.0.0.0", 81⟩ ⟨"h1", 91⟩ true,
                Route.mk "a2" "tcp" ⟨"0.0.0.0", 81⟩ ⟨"h2", 92⟩ true],
          q.enabled = true →
          ¬ collidesWith q.protocol q.listen
            (Route.mk "b" "tcp" ⟨"0.0.0.0", 82⟩ ⟨"h3", 93⟩ true).protocol
            (Route.mk "b" "tcp" ⟨"0.0.0.0", 82⟩ ⟨"h3", 93⟩ true).listen))
    ∧ (Route.mk "b" "tcp" ⟨"0.0.0.0", 82⟩ ⟨"h3", 93⟩ true).name
        ∈ (startAllProxies
            (World.mk
              [⟨"a", "tcp", ⟨"0.0.0.0", 81⟩, ⟨"h1", 91⟩, true⟩,
               ⟨"a2", "tcp", ⟨"0.0.0.0", 81⟩, ⟨"h2", 92⟩, true⟩,
               ⟨"b", "tcp", ⟨"0.0.0.0", 82⟩, ⟨"h3", 93⟩, true⟩]
              [] [] [] [] [] 0 0 [])).active.map (fun s => s.name) :=
  ⟨⟨by decide, by decide, by decide, by decide⟩,
    (startAll_skips_failures_and_continues
      (World.mk
        [⟨"a", "tcp", ⟨"0.0.0.0", 81⟩, ⟨"h1", 91⟩, true⟩,
         ⟨"a2", "tcp", ⟨"0.0.0.0", 81⟩, ⟨"h2", 92⟩, true⟩,
         ⟨"b", "tcp", ⟨"0.0.0.0", 82⟩, ⟨"h3", 93⟩, true⟩]
        [] [] [] [] [] 0 0 [])).2.2.1
      [⟨"a", "tcp", ⟨"0.0.0.0", 81⟩, ⟨"h1", 91⟩, true⟩,
       ⟨"a2", "tcp", ⟨"0.0.0.0", 81⟩, ⟨"h2", 92⟩, true⟩]
      (Route.mk "b" "tcp" ⟨"0.0.0.0", 82⟩ ⟨"h3", 93⟩ true) []
      (by decide) (by decide) (by decide) (by decide)⟩

/-- C7: confirmed.  For a name absent from the route table, removeRoute,
updateRoute and toggleRoute each return the structured not-found failure
synchronously and leave the entire world — route table, active set, bound
sockets, persistence counter, logs — untouched. -/
theorem routeManager_notFound_noop (w : World) (n : String) (cfg : Route)
    (h : w.routes.find? (fun r => r.name = n) = none) :
    removeRoute w n = (⟨false, "Route " ++ n ++ " not found"⟩, w)
    ∧ updateRoute w n cfg = (⟨false, "Route " ++ n ++ " not found"⟩, w)
    ∧ toggleRoute w n = (⟨false, "Route " ++ n ++ " not found"⟩, w) := by
  unfold removeRoute updateRoute toggleRoute
  rw [h]
  exact ⟨rfl, rfl, rfl⟩

/-- Witness for routeManager_notFound_noop: empty world, name ghost. -/
theorem routeManager_notFound_noop_witness :
    ((World.mk [] [] [] [] [] [] 0 0 []).routes.find? (fun r => r.name = "ghost") = none)
    ∧ (removeRoute (World.mk [] [] [] [] [] [] 0 0 []) "ghost"
        = (⟨false, "Route " ++ "ghost" ++ " not found"⟩, World.mk [] [] [] [] [] [] 0 0 [])
      ∧ updateRoute (World.mk [] [] [] [] [] [] 0 0 []) "ghost"
          (Route.mk "x" "tcp" ⟨"h", 1⟩ ⟨"h", 1⟩ true)
        = (⟨false, "Route " ++ "ghost" ++ " not found"⟩, World.mk [] [] [] [] [] [] 0 0 [])
      ∧ toggleRoute (World.mk [] [] [] [] [] [] 0 0 []) "ghost"
        = (⟨false, "Route " ++ "ghost" ++ " not found"⟩, World.mk [] [] [] [] [] [] 0 0 [])) :=
  ⟨rfl, routeManager_notFound_noop (World.mk [] [] [] [] [] [] 0 0 []) "ghost"
    (Route.mk "x" "tcp" ⟨"h", 1⟩ ⟨"h", 1⟩ true) rfl⟩

/-- C9: confirmed.  A route whose protocol is neither tcp nor udp is
accepted by the control plane without any error result: addRoute stores it
and reports success, updateRoute and toggleRoute report success, yet in
every case the protocol dispatch leaves server = null, so no listener is
started, nothing is bound, and the active set is untouched; and no entry
of the active set left by startAllProxies can carry such a protocol. -/
theorem other_protocol_silently_skipped (w : World) (cfg : Route) (n : String) (r₀ : Route)
    (hp1 : cfg.protocol ≠ "tcp") (hp2 : cfg.protocol ≠ "udp") :
    (w.routes.find? (fun r => r.name = cfg.name) = none →
      (addRoute w cfg).1.success = true
      ∧ (addRoute w cfg).2.active = w.active
      ∧ (addRoute w cfg).2.bound = w.bound
      ∧ (addRoute w cfg).2.routes = w.routes ++ [cfg])
    ∧ (w.routes.find? (fun r => r.name = n) = some r₀ →
        w.active.find? (fun s => s.name = n) = none →
      (updateRoute w n cfg).1.success = true
      ∧ (updateRoute w n cfg).2.active = w.active
      ∧ (updateRoute w n cfg).2.bound = w.bound)
    ∧ (w.routes.find? (fun r => r.name = n) = some r₀ →
        r₀.protocol ≠ "tcp" → r₀.protocol ≠ "udp" →
        w.active.find? (fun s => s.name = n) = none →
      (toggleRoute w n).1.success = true
      ∧ (toggleRoute w n).2.active = w.active
      ∧ (toggleRoute w n).2.bound = w.bound)
    ∧ (∀ s ∈ (startAllProxies w).active, s.protocol = "tcp" ∨ s.protocol = "udp") := by
  refine ⟨?_, ?_, ?_, ?_⟩
  · intro hf
    unfold addRoute
    rw [hf]
    by_cases he : cfg.enabled <;>
      simp [he, startAndRegister_other _ cfg.name cfg hp1 hp2]
  · intro hf ha
    unfold updateRoute
    rw [hf]
    have hstop : ∀ rs : List Route,
        stopNamedServer (saveConfig { w with routes := rs }) n
          = saveConfig { w with routes := rs } :=
      fun rs => stopNamedServer_noop _ n (by simpa using ha)
    have hsar : ∀ u : World, startAndRegister u n cfg = u :=
      fun u => startAndRegister_other u n cfg hp1 hp2
    by_cases he : cfg.enabled <;> simp [he, hstop, hsar]
  · intro hf hro1 hro2 ha
    unfold toggleRoute
    rw [hf]
    have hscrut : (saveConfig { w with routes := flipFirst w.routes n }).routes.find?
        (fun r => r.name = n) = some { r₀ with enabled := !r₀.enabled } := by
      have hred : (saveConfig { w with routes := flipFirst w.routes n }).routes
          = flipFirst w.routes n := rfl
      rw [hred]
      exact find?_flipFirst w.routes n r₀ hf
    have hsar : ∀ (u : World) (b : Bool), startAndRegister u n { r₀ with enabled := b } = u :=
      fun u b => startAndRegister_other u n _ (by simpa using hro1) (by simpa using hro2)
    simp only [hscrut]
    rcases hr : r₀.enabled <;> simp [hr, ha, hsar]
  · intro s hs
    rw [startAllProxies_active_eq] at hs
    refine startAllLoop_proto w.routes (stopAllProxies w) ?_ s hs
    intro t ht
    rw [stopAllProxies_active] at ht
    exact absurd ht (List.not_mem_nil t)

/-- Witness for other_protocol_silently_skipped: addRoute of a fresh icmp
route, and updateRoute/toggleRoute of a stored icmp route, all report
success while the active set stays empty. -/
theorem other_protocol_silently_skipped_witness :
    (cfgOther.protocol ≠ "tcp" ∧ cfgOther.protocol ≠ "udp"
      ∧ wOther.routes.find? (fun r => r.name = cfgOther.name) = none
      ∧ wOther.routes.find? (fun r => r.name = "ping")
          = some (Route.mk "ping" "icmp" ⟨"0.0.0.0", 7⟩ ⟨"h", 7⟩ false)
      ∧ wOther.active.find? (fun s => s.name = "ping") = none)
    ∧ ((addRoute wOther cfgOther).1.success = true
      ∧ (addRoute wOther cfgOther).2.active = wOther.active
      ∧ (addRoute wOther cfgOther).2.bound = wOther.bound
      ∧ (addRoute wOther cfgOther).2.routes = wOther.routes ++ [cfgOther])
    ∧ ((updateRoute wOther "ping" cfgOther).1.success = true
      ∧ (updateRoute wOther "ping" cfgOther).2.active = wOther.active
      ∧ (updateRoute wOther "ping" cfgOther).2.bound = wOther.bound)
    ∧ ((toggleRoute wOther "ping").1.success = true
      ∧ (toggleRoute wOther "ping").2.active = wOther.active
      ∧ (toggleRoute wOther "ping").2.bound = wOther.bound) :=
  ⟨⟨by decide, by decide, by decide, by decide, by decide⟩,
    (other_protocol_silently_skipped wOther cfgOther "ping"
      (Route.mk "ping" "icmp" ⟨"0.0.0.0", 7⟩ ⟨"h", 7⟩ false)
      (by decide) (by decide)).1 (by decide),
    (other_protocol_silently_skipped wOther cfgOther "ping"
      (Route.mk "ping" "icmp" ⟨"0.0.0.0", 7⟩ ⟨"h", 7⟩ false)
      (by decide) (by decide)).2.1 (by decide) (by decide),
    (other_protocol_silently_skipped wOther cfgOther "ping"
      (Route.mk "ping" "icmp" ⟨"0.0.0.0", 7⟩ ⟨"h", 7⟩ false)
      (by decide) (by decide)).2.2.1 (by decide) (by decide) (by decide) (by decide)⟩

/-- C10: confirmed.  A POST /routes or PUT /routes/:name body that passes
the required-field check is normalised exactly as the claim says: the
route handed to the routeManager (and, for a fresh name, appended to the
route table) carries listen.host 0.0.0.0 whenever the body's listen.host
was absent or empty (JS falsy), carries the given host otherwise, and
carries enabled = false exactly when the body's enabled was the literal
false — any other value, including absence, yields true. -/
theorem api_host_and_enabled_normalisation (w : World) (nm proto : String)
    (l : ApiListen) (f : ApiForward) (en : JsVal)
    (hn : nm ≠ "") (hp : proto ≠ "") :
    handleAddRoute w ⟨some nm, some proto, some l, some f, en⟩
        = some (addRoute w (apiRouteOfBody nm proto l f en))
    ∧ handleUpdateRoute w nm ⟨some nm, some proto, some l, some f, en⟩
        = some (updateRoute w nm (apiRouteOfBody "" proto l f en))
    ∧ ((l.host = none ∨ l.host = some "") →
        (apiRouteOfBody nm proto l f en).listen.host = "0.0.0.0")
    ∧ (∀ h, l.host = some h → h ≠ "" → (apiRouteOfBody nm proto l f en).listen.host = h)
    ∧ ((apiRouteOfBody nm proto l f en).enabled = false ↔ en = JsVal.jsFalse)
    ∧ (w.routes.find? (fun r => r.name = nm) = none →
        (addRoute w (apiRouteOfBody nm proto l f en)).2.routes
          = w.routes ++ [apiRouteOfBody nm proto l f en]) := by
  refine ⟨?_, ?_, ?_, ?_, ?_, ?_⟩
  · simp [handleAddRoute, hn, hp]
  · simp [handleUpdateRoute, hp]
  · rintro (h | h) <;> simp [apiRouteOfBody, jsOrDefault, h]
  · intro h hh hne
    simp [apiRouteOfBody, jsOrDefault, hh, hne]
  · cases en <;> simp [apiRouteOfBody]
  · intro hf
    unfold addRoute
    have hf' : w.routes.find?
        (fun r => r.name = (apiRouteOfBody nm proto l f en).name) = none := by
      simpa [apiRouteOfBody] using hf
    simp only [hf']
    by_cases he : (apiRouteOfBody nm proto l f en).enabled <;> simp [he]

/-- Witness for api_host_and_enabled_normalisation: empty world, body with
no listen.host and no enabled field. -/
theorem api_host_and_enabled_normalisation_witness :
    (("r1" : String) ≠ "" ∧ ("tcp" : String) ≠ "")
    ∧ (handleAddRoute (World.mk [] [] [] [] [] [] 0 0 [])
          ⟨some "r1", some "tcp", some (ApiListen.mk none 80), some (ApiForward.mk "b" 90),
            JsVal.absent⟩
        = some (addRoute (World.mk [] [] [] [] [] [] 0 0 [])
            (apiRouteOfBody "r1" "tcp" (ApiListen.mk none 80) (ApiForward.mk "b" 90)
              JsVal.absent))
      ∧ handleUpdateRoute (World.mk [] [] [] [] [] [] 0 0 []) "r1"
          ⟨some "r1", some "tcp", some (ApiListen.mk none 80), some (ApiForward.mk "b" 90),
            JsVal.absent⟩
        = some (updateRoute (World.mk [] [] [] [] [] [] 0 0 []) "r1"
            (apiRouteOfBody "" "tcp" (ApiListen.mk none 80) (ApiForward.mk "b" 90)
              JsVal.absent))
      ∧ (((ApiListen.mk none 80).host = none ∨ (ApiListen.mk none 80).host = some "") →
          (apiRouteOfBody "r1" "tcp" (ApiListen.mk none 80) (ApiForward.mk "b" 90)
            JsVal.absent).listen.host = "0.0.0.0")
      ∧ (∀ h, (ApiListen.mk none 80).host = some h → h ≠ "" →
          (apiRouteOfBody "r1" "tcp" (ApiListen.mk none 80) (ApiForward.mk "b" 90)
            JsVal.absent).listen.host = h)
      ∧ ((apiRouteOfBody "r1" "tcp" (ApiListen.mk none 80) (ApiForward.mk "b" 90)
            JsVal.absent).enabled = false ↔ JsVal.absent = JsVal.jsFalse)
      ∧ ((World.mk [] [] [] [] [] [] 0 0 []).routes.find? (fun r => r.name = "r1") = none →
          (addRoute (World.mk [] [] [] [] [] [] 0 0 [])
            (apiRouteOfBody "r1" "tcp" (ApiListen.mk none 80) (ApiForward.mk "b" 90)
              JsVal.absent)).2.routes
            = (World.mk [] [] [] [] [] [] 0 0 []).routes
              ++ [apiRouteOfBody "r1" "tcp" (ApiListen.mk none 80) (ApiForward.mk "b" 90)
                  JsVal.absent])) :=
  ⟨⟨by decide, by decide⟩,
    api_host_and_enabled_normalisation (World.mk [] [] [] [] [] [] 0 0 []) "r1" "tcp"
      (ApiListen.mk none 80) (ApiForward.mk "b" 90) JsVal.absent (by decide) (by decide)⟩

end Ts3Proxy
